import Mathlib

/-!
Verification of the focal-point picker coordinate model from
`packages/components/src/focal-point-picker/index.native.js`.

The component translates between three coordinate representations:
a normalized focal point (fractions of the container), pixel positions
inside the measured container, and percentage slider values. We embed
the component state (`containerSize`, `sliderKey`, `tooltipVisible`,
the animated pan value) and its event handlers as pure Lean functions
over rationals, with JavaScript number/truthiness semantics made
explicit where the source relies on them.
-/

set_option autoImplicit false

namespace FocalPointPicker

/-- A JavaScript value as it flows through this component: a finite
number, `NaN`, positive or negative infinity, or `undefined` (a missing
object key or an optional-chaining miss). Modelled over `ℚ` for the
finite case since every arithmetic step in the source is exact on the
inputs the claims use. -/
inductive JSVal where
  | num (q : ℚ)
  | nan
  | posInf
  | negInf
  | undefined
deriving DecidableEq, Repr

/-- JavaScript truthiness for `JSVal`: `0`, `NaN` and `undefined` are
falsy; every other number, including infinities, is truthy. -/
def truthy : JSVal → Bool
  | .num q => q != 0
  | .nan => false
  | .posInf => true
  | .negInf => true
  | .undefined => false

/-- JavaScript division `a / b` where `a` is a finite number and `b` is
whatever `containerSize?.width` evaluates to: dividing by `undefined`
or `NaN` yields `NaN`, dividing by `0` yields a signed infinity (or
`NaN` for `0 / 0`), dividing by an infinity yields `0`. -/
def jsDiv (a : ℚ) : JSVal → JSVal
  | .num w =>
      if w = 0 then
        if a > 0 then .posInf else if a < 0 then .negInf else .nan
      else .num (a / w)
  | .nan => .nan
  | .posInf => .num 0
  | .negInf => .num 0
  | .undefined => .nan

/-- `Math.round` on a finite number: round half toward positive
infinity, i.e. `⌊q + 1/2⌋`. -/
def jsRound (q : ℚ) : ℤ :=
  ⌊q + 1 / 2⌋

/-- The measured container size (`containerSize` state). -/
structure Size where
  width : ℚ
  height : ℚ
deriving DecidableEq, Repr

/-- `containerSize?.width`: `undefined` when the container has not been
measured. -/
def optWidth : Option Size → JSVal
  | none => .undefined
  | some s => .num s.width

/-- `containerSize?.height`. -/
def optHeight : Option Size → JSVal
  | none => .undefined
  | some s => .num s.height

/-- The externally owned focal point, passed into the component by
value on each render. -/
structure FocalPoint where
  x : ℚ
  y : ℚ
deriving DecidableEq, Repr

/-- The `Animated.ValueXY` pan state: per axis a raw value (`_value`)
and an offset (`_offset`). The displayed value of an axis is
`value + offset`. -/
structure AnimatedXY where
  xValue : ℚ
  xOffset : ℚ
  yValue : ℚ
  yOffset : ℚ
deriving DecidableEq, Repr

/-- `pan.setValue({x, y})`: replaces the raw values, keeps offsets. -/
def setValueXY (p : AnimatedXY) (x y : ℚ) : AnimatedXY :=
  { p with xValue := x, yValue := y }

/-- `pan.setOffset({x, y})`: replaces the offsets, keeps raw values. -/
def setOffsetXY (p : AnimatedXY) (x y : ℚ) : AnimatedXY :=
  { p with xOffset := x, yOffset := y }

/-- `pan.flattenOffset()`: merges each offset into the raw value and
resets the offset to zero. -/
def flattenOffset (p : AnimatedXY) : AnimatedXY :=
  { xValue := p.xValue + p.xOffset, xOffset := 0,
    yValue := p.yValue + p.yOffset, yOffset := 0 }

/-- Displayed x position of the pan value (`__getValue`):
raw value plus offset. -/
def displayedX (p : AnimatedXY) : ℚ :=
  p.xValue + p.xOffset

/-- Displayed y position of the pan value. -/
def displayedY (p : AnimatedXY) : ℚ :=
  p.yValue + p.yOffset

/-- The component state relevant to the coordinate model. -/
structure PickerState where
  containerSize : Option Size
  sliderKey : ℕ
  tooltipVisible : Bool
  pan : AnimatedXY
deriving DecidableEq, Repr

/-- Initial state: `useState(null)`, `useState(0)`, `useState(true)`,
`new Animated.ValueXY()` (which starts at value 0, offset 0). -/
def initState : PickerState :=
  { containerSize := none, sliderKey := 0, tooltipVisible := true,
    pan := ⟨0, 0, 0, 0⟩ }

/-- A partial focal-point update as emitted to the `onChange` callback:
each axis key is either present with a value or absent. -/
structure Update where
  x : Option JSVal
  y : Option JSVal
deriving DecidableEq, Repr

/-- `setPosition({x, y})`: builds the partial update spread onto the
previous focal point. An axis key is included exactly when its value is
truthy (`...( x ? { x } : {} )`). -/
def setPosition (x y : JSVal) : Update :=
  { x := if truthy x then some x else none,
    y := if truthy y then some y else none }

/-- The `onLayout` handler: stores `{width, height}` only when both are
non-zero and the pair differs from the currently stored size
(`containerSize?.width !== width || containerSize?.height !== height`;
against an unmeasured container both comparisons are with `undefined`
and so hold). -/
def onLayout (s : PickerState) (width height : ℚ) : PickerState :=
  if width ≠ 0 ∧ height ≠ 0 ∧
      (optWidth s.containerSize ≠ .num width ∨
       optHeight s.containerSize ≠ .num height) then
    { s with containerSize := some ⟨width, height⟩ }
  else s

/-- `onPanResponderGrant`: sets the pan value to the tap origin, then
sets the offset to the just-written raw value (`pan.x._value`),
discarding any previous offset. -/
def onPanResponderGrant (s : PickerState) (x y : ℚ) : PickerState :=
  let p1 := setValueXY s.pan x y
  let p2 := setOffsetXY p1 p1.xValue p1.yValue
  { s with pan := p2 }

/-- `onPanResponderMove` via `Animated.event([null, {dx: pan.x, dy:
pan.y}])`: writes the cumulative gesture deltas into the raw values
(on top of the standing offset). Emits no focal-point change. -/
def onPanResponderMove (s : PickerState) (dx dy : ℚ) : PickerState :=
  { s with pan := setValueXY s.pan dx dy }

/-- `onPanResponderRelease`: hides the tooltip, flattens the pan
offset, converts the final pixel coordinates to fractions by dividing
by the (possibly unmeasured) container dimensions, emits the partial
update through `setPosition`, and increments `sliderKey`. Returns the
new state together with the emitted update. -/
def onPanResponderRelease (s : PickerState) (x y : ℚ) :
    PickerState × Update :=
  let u := setPosition (jsDiv x (optWidth s.containerSize))
                       (jsDiv y (optHeight s.containerSize))
  ({ s with
      tooltipVisible := false
      pan := flattenOffset s.pan
      sliderKey := s.sliderKey + 1 }, u)

/-- The x-axis slider `onChange`: `( x ) => setPosition( { x: x / 100 } )`.
The `y` key is absent, hence `undefined` inside `setPosition`. -/
def onXAxisSliderChanged (v : ℚ) : Update :=
  setPosition (.num (v / 100)) .undefined

/-- The y-axis slider `onChange`: `( y ) => setPosition( { y: y / 100 } )`. -/
def onYAxisSliderChanged (v : ℚ) : Update :=
  setPosition .undefined (.num (v / 100))

/-- The render-time initial cursor placement: when `containerSize` is
set, `pan.setValue({x: focalPoint.x * width, y: focalPoint.y * height})`. -/
def renderCursor (focal : FocalPoint) (s : PickerState) : AnimatedXY :=
  match s.containerSize with
  | none => s.pan
  | some cs => setValueXY s.pan (focal.x * cs.width) (focal.y * cs.height)

/-- The `value` prop handed to a `RangeControl` slider:
`Math.round(focalPoint.axis * 100)`. -/
def sliderValueProp (f : ℚ) : ℤ :=
  jsRound (f * 100)

/-- Modelled from the spec: the `RangeControl` widget itself (imported
from `@wordpress/components`, not part of this excerpt) displays its
`value` prop clamped to the `[min, max]` range it is given. -/
def rangeControlDisplay (minV maxV v : ℤ) : ℤ :=
  max minV (min maxV v)

/-- What a percentage slider displays for an axis fraction `f`: the
source-computed `Math.round(f * 100)` clamped by the widget to the
`min={0}`/`max={100}` props. -/
def sliderDisplay (f : ℚ) : ℤ :=
  rangeControlDisplay 0 100 (sliderValueProp f)

/-- The externally observable operations of the controller. -/
inductive Op where
  | layout (w h : ℚ)
  | dragStart (x y : ℚ)
  | dragMove (dx dy : ℚ)
  | dragEnd (x y : ℚ)
  | sliderX (v : ℚ)
  | sliderY (v : ℚ)
deriving DecidableEq, Repr

/-- State transition of one operation. Slider edits do not touch the
component state: they only emit. -/
def step (s : PickerState) : Op → PickerState
  | .layout w h => onLayout s w h
  | .dragStart x y => onPanResponderGrant s x y
  | .dragMove dx dy => onPanResponderMove s dx dy
  | .dragEnd x y => (onPanResponderRelease s x y).1
  | .sliderX _ => s
  | .sliderY _ => s

/-- The update (if any) emitted to the external change callback by one
operation. -/
def stepEmit (s : PickerState) : Op → Option Update
  | .layout _ _ => none
  | .dragStart _ _ => none
  | .dragMove _ _ => none
  | .dragEnd x y => some (onPanResponderRelease s x y).2
  | .sliderX v => some (onXAxisSliderChanged v)
  | .sliderY v => some (onYAxisSliderChanged v)

/-- Run a sequence of operations from a state. -/
def run (s : PickerState) (ops : List Op) : PickerState :=
  ops.foldl step s

end FocalPointPicker

namespace FocalPointPicker

/-- A state whose container has been measured at 200 × 100. -/
def measuredState : PickerState :=
  onLayout initState 200 100

/-- Evaluating `measuredState`: the layout event stores the size. -/
theorem measuredState_eq :
    measuredState =
      { containerSize := some ⟨200, 100⟩, sliderKey := 0,
        tooltipVisible := true, pan := ⟨0, 0, 0, 0⟩ } := by
  simp [measuredState, onLayout, initState, optWidth, optHeight]

/-- `(onPanResponderRelease s x y).2` is the `setPosition` of the two
axis divisions. -/
theorem release_snd_eq (s : PickerState) (x y : ℚ) :
    (onPanResponderRelease s x y).2 =
      setPosition (jsDiv x (optWidth s.containerSize))
                  (jsDiv y (optHeight s.containerSize)) := rfl

/-- The x key of a `setPosition` update is never a present zero. -/
theorem setPosition_x_not_zero (a b : JSVal) :
    (setPosition a b).x ≠ some (.num 0) := by
  unfold setPosition
  by_cases h : truthy a = true
  · rw [if_pos h]
    intro heq
    rw [Option.some_inj] at heq
    subst heq
    simp [truthy] at h
  · rw [if_neg h]
    intro heq
    exact Option.noConfusion heq

/-- The y key of a `setPosition` update is never a present zero. -/
theorem setPosition_y_not_zero (a b : JSVal) :
    (setPosition a b).y ≠ some (.num 0) := by
  unfold setPosition
  by_cases h : truthy b = true
  · rw [if_pos h]
    intro heq
    rw [Option.some_inj] at heq
    subst heq
    simp [truthy] at h
  · rw [if_neg h]
    intro heq
    exact Option.noConfusion heq

/-- The guard of `onLayout` is a plain disequality with the stored
size. -/
theorem layoutCondition_iff (cs : Option Size) (w h : ℚ) :
    (optWidth cs ≠ .num w ∨ optHeight cs ≠ .num h) ↔ cs ≠ some ⟨w, h⟩ := by
  cases cs with
  | none => simp [optWidth, optHeight]
  | some s =>
      obtain ⟨sw, sh⟩ := s
      simp only [optWidth, optHeight, ne_eq, JSVal.num.injEq,
        Option.some_inj, Size.mk.injEq, not_and]
      tauto

/-- `onLayout` never changes `sliderKey`. -/
theorem onLayout_sliderKey (s : PickerState) (w h : ℚ) :
    (onLayout s w h).sliderKey = s.sliderKey := by
  unfold onLayout
  split <;> rfl


/-- C1 (counterexample): `onAxisSliderChanged('x', 0)` does not emit an
update containing the x key — `0 / 100 = 0` is falsy, so the axis key
is dropped, refuting the claim at `percentValue = 0` (and symmetrically
for y). -/
theorem C1_cex_slider_zero_omits_key :
    (onXAxisSliderChanged 0).x = none ∧ (onYAxisSliderChanged 0).y = none := by
  constructor <;>
    simp [onXAxisSliderChanged, onYAxisSliderChanged, setPosition, truthy]

/-- C1 (amended): for every axis and every integer `percentValue` in
`[1, 100]`, `onAxisSliderChanged(axis, percentValue)` emits exactly
`{ [axis]: percentValue / 100 }` to the change callback, containing
that axis key, immediately and independent of any prior state. -/
theorem C1_slider_change_emits_fraction (v : ℤ) (h1 : 1 ≤ v) (_h2 : v ≤ 100) :
    onXAxisSliderChanged (v : ℚ) = ⟨some (.num ((v : ℚ) / 100)), none⟩ ∧
    onYAxisSliderChanged (v : ℚ) = ⟨none, some (.num ((v : ℚ) / 100))⟩ ∧
    ∀ s : PickerState,
      stepEmit s (.sliderX (v : ℚ)) = some ⟨some (.num ((v : ℚ) / 100)), none⟩ ∧
      stepEmit s (.sliderY (v : ℚ)) = some ⟨none, some (.num ((v : ℚ) / 100))⟩ := by
  have hvpos : (0 : ℚ) < (v : ℚ) := by exact_mod_cast lt_of_lt_of_le zero_lt_one h1
  have hv : ((v : ℚ) / 100) ≠ 0 := ne_of_gt (div_pos hvpos (by norm_num))
  have hx : onXAxisSliderChanged (v : ℚ) = ⟨some (.num ((v : ℚ) / 100)), none⟩ := by
    simp [onXAxisSliderChanged, setPosition, truthy, hv]
  have hy : onYAxisSliderChanged (v : ℚ) = ⟨none, some (.num ((v : ℚ) / 100))⟩ := by
    simp [onYAxisSliderChanged, setPosition, truthy, hv]
  exact ⟨hx, hy, fun s => ⟨by simp [stepEmit, hx], by simp [stepEmit, hy]⟩⟩

/-- C1 (witness): at `percentValue = 75` on the x axis the emitted
update is `{x: 75/100}`. -/
theorem C1_slider_change_emits_fraction_witness :
    onXAxisSliderChanged ((75 : ℤ) : ℚ) =
      ⟨some (.num (((75 : ℤ) : ℚ) / 100)), none⟩ :=
  (C1_slider_change_emits_fraction 75 (by decide) (by decide)).1

/-- C2: with a measured container of positive width, a drag ending at
an x pixel coordinate strictly beyond the container width emits an x
value strictly greater than 1 (and symmetrically for y): the emitted
focal point is not clamped. -/
theorem C2_no_clamp_on_emit (s : PickerState) (cs : Size) (x y : ℚ)
    (hcs : s.containerSize = some cs) :
    (0 < cs.width → cs.width < x →
      (onPanResponderRelease s x y).2.x = some (.num (x / cs.width)) ∧
      1 < x / cs.width) ∧
    (0 < cs.height → cs.height < y →
      (onPanResponderRelease s x y).2.y = some (.num (y / cs.height)) ∧
      1 < y / cs.height) := by
  constructor
  · intro hw hx
    have h1 : 1 < x / cs.width := (one_lt_div hw).mpr hx
    have hne : x / cs.width ≠ 0 := ne_of_gt (lt_trans one_pos h1)
    refine ⟨?_, h1⟩
    rw [release_snd_eq, hcs]
    simp [setPosition, jsDiv, optWidth, truthy, hw.ne', hne]
  · intro hh hy
    have h1 : 1 < y / cs.height := (one_lt_div hh).mpr hy
    have hne : y / cs.height ≠ 0 := ne_of_gt (lt_trans one_pos h1)
    refine ⟨?_, h1⟩
    rw [release_snd_eq, hcs]
    simp [setPosition, jsDiv, optHeight, truthy, hh.ne', hne]

/-- C2 (witness): with container 200 × 100, a drag ending at
`(300, 150)` emits `x = 3/2 > 1` and `y = 3/2 > 1`. -/
theorem C2_no_clamp_on_emit_witness :
    ((onPanResponderRelease measuredState 300 150).2.x =
        some (.num ((300 : ℚ) / 200)) ∧ 1 < (300 : ℚ) / 200) ∧
    ((onPanResponderRelease measuredState 300 150).2.y =
        some (.num ((150 : ℚ) / 100)) ∧ 1 < (150 : ℚ) / 100) :=
  ⟨(C2_no_clamp_on_emit measuredState ⟨200, 100⟩ 300 150 (by decide)).1
      (by norm_num) (by norm_num),
   (C2_no_clamp_on_emit measuredState ⟨200, 100⟩ 300 150 (by decide)).2
      (by norm_num) (by norm_num)⟩

/-- C3: with container 200 × 100 and focal point `(0.5, 0.25)`, the
render-time initial cursor pixel position is `(100, 25)`, and
`onDragEnd(100, 25)` emits the update `{x: 0.5, y: 0.25}` — the
fraction→pixel and pixel→fraction conversions round-trip. -/
theorem C3_round_trip :
    renderCursor ⟨1/2, 1/4⟩ measuredState =
      { xValue := 100, xOffset := 0, yValue := 25, yOffset := 0 } ∧
    (onPanResponderRelease measuredState 100 25).2 =
      ⟨some (.num (1/2)), some (.num (1/4))⟩ := by
  constructor
  · rw [measuredState_eq]
    simp only [renderCursor, setValueXY]
    norm_num
  · rw [release_snd_eq, measuredState_eq]
    simp only [optWidth, optHeight]
    norm_num [jsDiv, setPosition, truthy]

/-- C4: while the container is unmeasured (`containerSize = null`),
`onDragEnd` emits an update with neither an x key nor a y key: both
divisions hit `undefined` and produce `NaN`, which the truthiness test
drops. -/
theorem C4_unmeasured_emits_empty (s : PickerState) (x y : ℚ)
    (h : s.containerSize = none) :
    (onPanResponderRelease s x y).2 = ⟨none, none⟩ := by
  rw [release_snd_eq, h]
  simp [setPosition, jsDiv, optWidth, optHeight, truthy]

/-- C4 (witness): from the initial state, `onDragEnd(50, 50)` emits the
empty update. -/
theorem C4_unmeasured_emits_empty_witness :
    (onPanResponderRelease initState 50 50).2 = ⟨none, none⟩ :=
  C4_unmeasured_emits_empty initState 50 50 rfl


/-- C5: `onLayout` updates the stored container size exactly when both
dimensions are non-zero and the pair differs from the stored size:
repeated calls with the same dimensions are no-ops, a zero dimension
never updates, a genuinely new non-zero pair is stored, and a call
matching the stored size leaves the state untouched. -/
theorem C5_onLayout_guard (s : PickerState) (w h : ℚ) :
    onLayout (onLayout s w h) w h = onLayout s w h ∧
    (w = 0 ∨ h = 0 → onLayout s w h = s) ∧
    (w ≠ 0 → h ≠ 0 → s.containerSize ≠ some ⟨w, h⟩ →
      (onLayout s w h).containerSize = some ⟨w, h⟩) ∧
    (s.containerSize = some ⟨w, h⟩ → onLayout s w h = s) := by
  refine ⟨?_, ?_, ?_, ?_⟩
  · by_cases hc : w ≠ 0 ∧ h ≠ 0 ∧
        (optWidth s.containerSize ≠ .num w ∨
         optHeight s.containerSize ≠ .num h)
    · have h1 : onLayout s w h = { s with containerSize := some ⟨w, h⟩ } := by
        rw [onLayout, if_pos hc]
      rw [h1]
      simp [onLayout, optWidth, optHeight]
    · have h1 : onLayout s w h = s := by rw [onLayout, if_neg hc]
      rw [h1]
      exact h1
  · intro hz
    rw [onLayout, if_neg]
    intro hc
    rcases hz with hz | hz
    · exact hc.1 hz
    · exact hc.2.1 hz
  · intro hw hh hne
    rw [onLayout, if_pos ⟨hw, hh, (layoutCondition_iff s.containerSize w h).mpr hne⟩]
  · intro heq
    rw [onLayout, if_neg]
    intro hc
    exact (layoutCondition_iff s.containerSize w h).mp hc.2.2 heq

/-- C5 (witness): concrete instances of the four parts — measuring a
fresh container twice at 200 × 100, a zero width, a first measurement,
and a repeated measurement of the stored size. -/
theorem C5_onLayout_guard_witness :
    onLayout (onLayout initState 200 100) 200 100 = onLayout initState 200 100 ∧
    onLayout initState 0 100 = initState ∧
    (onLayout initState 200 100).containerSize = some ⟨200, 100⟩ ∧
    onLayout measuredState 200 100 = measuredState :=
  ⟨(C5_onLayout_guard initState 200 100).1,
   (C5_onLayout_guard initState 0 100).2.1 (Or.inl rfl),
   (C5_onLayout_guard initState 200 100).2.2.1 (by norm_num) (by norm_num)
      (by simp [initState]),
   (C5_onLayout_guard measuredState 200 100).2.2.2 (by rw [measuredState_eq])⟩

/-- C6: the `sliderKey` epoch starts at 0, is incremented by exactly 1
on every completed drag release, is unchanged by every other operation
(layout, drag start, drag move, slider edits), and is monotonically
non-decreasing across every sequence of operations. -/
theorem C6_sliderKey_epoch :
    initState.sliderKey = 0 ∧
    (∀ (s : PickerState) (x y : ℚ),
      (step s (.dragEnd x y)).sliderKey = s.sliderKey + 1) ∧
    (∀ (s : PickerState) (op : Op), (∀ x y, op ≠ .dragEnd x y) →
      (step s op).sliderKey = s.sliderKey) ∧
    (∀ (s : PickerState) (ops : List Op),
      s.sliderKey ≤ (run s ops).sliderKey) := by
  have hstep : ∀ (s : PickerState) (op : Op),
      s.sliderKey ≤ (step s op).sliderKey := by
    intro s op
    cases op with
    | layout w h => rw [step, onLayout_sliderKey]
    | dragStart x y => exact le_refl _
    | dragMove dx dy => exact le_refl _
    | dragEnd x y => exact Nat.le_succ _
    | sliderX v => exact le_refl _
    | sliderY v => exact le_refl _
  refine ⟨rfl, fun s x y => rfl, ?_, ?_⟩
  · intro s op hop
    cases op with
    | layout w h => rw [step, onLayout_sliderKey]
    | dragStart x y => rfl
    | dragMove dx dy => rfl
    | dragEnd x y => exact absurd rfl (hop x y)
    | sliderX v => rfl
    | sliderY v => rfl
  · intro s ops
    induction ops generalizing s with
    | nil => exact le_refl _
    | cons op rest ih => exact le_trans (hstep s op) (ih (step s op))

/-- C6 (witness): a layout event leaves the epoch unchanged. -/
theorem C6_sliderKey_epoch_witness :
    (step initState (.layout 200 100)).sliderKey = initState.sliderKey :=
  C6_sliderKey_epoch.2.2.1 initState (.layout 200 100)
    (fun _ _ heq => Op.noConfusion heq)


/-- C7: a percentage slider displays `Math.round(fraction * 100)`
clamped by the widget to `[0, 100]`; for an in-range fraction the clamp
is the identity, and `0.333` displays `33` while `0.335` displays `34`. -/
theorem C7_slider_display (f : ℚ) :
    sliderDisplay f = max 0 (min 100 (jsRound (f * 100))) ∧
    (0 ≤ f → f ≤ 1 → sliderDisplay f = jsRound (f * 100)) ∧
    sliderDisplay (333/1000) = 33 ∧
    sliderDisplay (335/1000) = 34 := by
  have heval : ∀ g : ℚ, sliderDisplay g = max 0 (min 100 ⌊g * 100 + 1 / 2⌋) :=
    fun g => rfl
  refine ⟨rfl, ?_, ?_, ?_⟩
  · intro h0 h1
    have hl : (0 : ℤ) ≤ jsRound (f * 100) := by
      rw [jsRound]
      refine Int.le_floor.mpr ?_
      push_cast
      linarith
    have hu : jsRound (f * 100) ≤ 100 := by
      rw [jsRound]
      have hlt : ⌊f * 100 + 1 / 2⌋ < 101 := by
        refine Int.floor_lt.mpr ?_
        push_cast
        linarith
      omega
    show max 0 (min 100 (jsRound (f * 100))) = jsRound (f * 100)
    rw [min_eq_right hu, max_eq_right hl]
  · rw [heval]
    have hfl : ⌊(333 : ℚ)/1000 * 100 + 1 / 2⌋ = 33 := by
      rw [Int.floor_eq_iff]
      norm_num
    rw [hfl]
    omega
  · rw [heval]
    have hfl : ⌊(335 : ℚ)/1000 * 100 + 1 / 2⌋ = 34 := by
      rw [Int.floor_eq_iff]
      norm_num
    rw [hfl]
    omega

/-- C7 (witness): at `f = 1/2` the clamp is the identity and the
slider displays `round(50) = 50`. -/
theorem C7_slider_display_witness :
    sliderDisplay (1/2) = jsRound ((1/2 : ℚ) * 100) :=
  (C7_slider_display (1/2)).2.1 (by norm_num) (by norm_num)

/-- C8 (counterexample): immediately after `onDragStart(10, 10)` from
the initial state the displayed cursor position (animated value plus
offset) is `20`, not `10` — the grant handler sets the value to the tap
origin and then also sets the offset to that same raw value, doubling
the displayed position until the first move delta arrives. -/
theorem C8_cex_grant_doubles_display :
    displayedX (onPanResponderGrant initState 10 10).pan ≠ 10 := by
  norm_num [onPanResponderGrant, setValueXY, setOffsetXY, displayedX, initState]

/-- C8 (amended): immediately after `onDragStart(x, y)` the animated
raw value equals `(x, y)` and the new baseline offset equals the
just-set position `(x, y)`, any previous offset having been discarded;
consequently the displayed cursor position (value plus offset) equals
`(2x, 2y)` rather than `(x, y)` until the first move delta overwrites
the raw value. -/
theorem C8_grant_sets_value_and_offset (s : PickerState) (x y : ℚ) :
    (onPanResponderGrant s x y).pan.xValue = x ∧
    (onPanResponderGrant s x y).pan.yValue = y ∧
    (onPanResponderGrant s x y).pan.xOffset = x ∧
    (onPanResponderGrant s x y).pan.yOffset = y ∧
    displayedX (onPanResponderGrant s x y).pan = x + x ∧
    displayedY (onPanResponderGrant s x y).pan = y + y :=
  ⟨rfl, rfl, rfl, rfl, rfl, rfl⟩

/-- C9: during a gesture the displayed cursor position equals the
baseline offset established at drag start plus the cumulative move
delta, and the move emits no focal-point change; in particular
`onDragStart(10,10)` followed by `onDragMove(20, -5)` displays
`(30, 5)`. -/
theorem C9_move_tracks_baseline_plus_delta (s : PickerState)
    (x y dx dy : ℚ) :
    displayedX (onPanResponderMove (onPanResponderGrant s x y) dx dy).pan
      = x + dx ∧
    displayedY (onPanResponderMove (onPanResponderGrant s x y) dx dy).pan
      = y + dy ∧
    stepEmit (onPanResponderGrant s x y) (.dragMove dx dy) = none ∧
    displayedX (onPanResponderMove (onPanResponderGrant initState 10 10)
      20 (-5)).pan = 30 ∧
    displayedY (onPanResponderMove (onPanResponderGrant initState 10 10)
      20 (-5)).pan = 5 := by
  refine ⟨?_, ?_, rfl, ?_, ?_⟩ <;>
    norm_num [displayedX, displayedY, onPanResponderMove,
      onPanResponderGrant, setValueXY, setOffsetXY, initState, add_comm]

/-- C10: the truthiness presence test in `setPosition` drops an axis
whose computed value is exactly 0 (or NaN): no emitted update ever
contains a present zero, `onAxisSliderChanged(axis, 0)` emits no key
for that axis, a drag ending at pixel coordinate 0 on an axis emits no
key for that axis, and hence no operation can emit a zero focal-point
coordinate to the external consumer. -/
theorem C10_zero_axis_omitted :
    (∀ a b : JSVal, (setPosition a b).x ≠ some (.num 0) ∧
                    (setPosition a b).y ≠ some (.num 0)) ∧
    (onXAxisSliderChanged 0 = ⟨none, none⟩ ∧
     onYAxisSliderChanged 0 = ⟨none, none⟩) ∧
    (∀ (s : PickerState) (y : ℚ), (onPanResponderRelease s 0 y).2.x = none) ∧
    (∀ (s : PickerState) (x : ℚ), (onPanResponderRelease s x 0).2.y = none) ∧
    (∀ (s : PickerState) (op : Op) (u : Update), stepEmit s op = some u →
      u.x ≠ some (.num 0) ∧ u.y ≠ some (.num 0)) := by
  refine ⟨fun a b => ⟨setPosition_x_not_zero a b, setPosition_y_not_zero a b⟩,
    ⟨?_, ?_⟩, ?_, ?_, ?_⟩
  · simp [onXAxisSliderChanged, setPosition, truthy]
  · simp [onYAxisSliderChanged, setPosition, truthy]
  · intro s y
    rw [release_snd_eq]
    cases hs : s.containerSize with
    | none => simp [optWidth, jsDiv, setPosition, truthy]
    | some cs =>
        by_cases hw : cs.width = 0 <;>
          simp [optWidth, jsDiv, setPosition, truthy, hw]
  · intro s x
    rw [release_snd_eq]
    cases hs : s.containerSize with
    | none => simp [optHeight, jsDiv, setPosition, truthy]
    | some cs =>
        by_cases hh : cs.height = 0 <;>
          simp [optHeight, jsDiv, setPosition, truthy, hh]
  · intro s op u hemit
    cases op with
    | layout w h => simp [stepEmit] at hemit
    | dragStart x y => simp [stepEmit] at hemit
    | dragMove dx dy => simp [stepEmit] at hemit
    | dragEnd x y =>
        simp only [stepEmit, Option.some_inj] at hemit
        subst hemit
        rw [release_snd_eq]
        exact ⟨setPosition_x_not_zero _ _, setPosition_y_not_zero _ _⟩
    | sliderX v =>
        simp only [stepEmit, Option.some_inj] at hemit
        subst hemit
        exact ⟨setPosition_x_not_zero _ _, setPosition_y_not_zero _ _⟩
    | sliderY v =>
        simp only [stepEmit, Option.some_inj] at hemit
        subst hemit
        exact ⟨setPosition_x_not_zero _ _, setPosition_y_not_zero _ _⟩

/-- C10 (witness): the update emitted by an x-slider edit to 75 has no
present-zero axis. -/
theorem C10_zero_axis_omitted_witness :
    (onXAxisSliderChanged 75).x ≠ some (JSVal.num 0) ∧
    (onXAxisSliderChanged 75).y ≠ some (JSVal.num 0) :=
  C10_zero_axis_omitted.2.2.2.2 initState (.sliderX 75)
    (onXAxisSliderChanged 75) rfl

end FocalPointPicker
